import Mathlib

/-!
Shallow embedding of the repository source file (FretEnginePython).

This file embeds the data model and the operations of the repository's single
source module, `src/note/note.py`, and proves (or refutes) the frozen claims
about it.

Conventions used throughout:

* Python exception classes are modelled by `PyErr`: the module raises
  `ValueError` (the spec's InvalidFormat / InvalidValue), `TypeError` (the
  spec's WrongType) and lets `AttributeError` escape from `Note.__eq__`.
* Dynamically typed Python inputs are modelled by `PyVal` (a string or an
  integer); the claims only exercise these two shapes.
* Python's ASCII case folding (`str.lower` / `str.upper`, and
  `re.IGNORECASE` over the ASCII pattern `[A-G]` and the literal shift
  tokens) is modelled by `pyCharLower` / `pyStrLower` and friends.
* Fallible code returns `Except PyErr _`; in-place mutation of a `Note` is
  explicit state passing over `NoteState`, and `set_note` returns the final
  state *together with* the optional exception, so that partially applied
  mutation (the source assigns `_note_letter` and `_note_shift` before any
  validation runs) stays observable, exactly as in the source.
-/

namespace FretEngine

/-- The Python exception kinds raised by `note.py`: `ValueError` (which the
spec calls InvalidFormat or InvalidValue depending on context), `TypeError`
(the spec's WrongType), and `AttributeError`. -/
inductive PyErr where
  | valueError
  | typeError
  | attributeError
  deriving DecidableEq, Repr

deriving instance DecidableEq for Except

/-- A dynamically typed Python value, as far as the claims need: a string,
an integer, or a finite float.  Strings support `.lower()`; numbers do not
(attribute access fails, which the module converts into `TypeError`), and
numbers do not compare with strings (`TypeError` in ordered comparison).
A finite float is represented by its exact rational value: every finite
IEEE-754 double is a dyadic rational, and Python's ordered comparison and
`==` between `int` and `float` are exact, so the rational carries all the
behaviour the module observes. -/
inductive PyVal where
  | str (s : String)
  | int (n : Int)
  | float (q : ℚ)
  deriving DecidableEq, Repr

/-- Python `==` on the values above (used by `Note.__eq__` via the stored
octaves): numeric values compare by exact value across `int`/`float`
(`5 == 5.0` is `True`), strings compare by content, and a string never
equals a number. -/
def pyValEq (a b : PyVal) : Bool :=
  match a, b with
  | PyVal.str x, PyVal.str y => x == y
  | PyVal.int m, PyVal.int n => m == n
  | PyVal.float p, PyVal.float q => p == q
  | PyVal.int m, PyVal.float q => ((m : ℚ) == q)
  | PyVal.float p, PyVal.int n => (p == (n : ℚ))
  | _, _ => false

/-- Models `str.lower` on one ASCII character (Python's case folding restricted to
the ASCII range, which is all the module's tables and patterns use). -/
def pyCharLower (c : Char) : Char :=
  if 'A' ≤ c ∧ c ≤ 'Z' then Char.ofNat (c.toNat + 32) else c

/-- Models `str.upper` on one ASCII character. -/
def pyCharUpper (c : Char) : Char :=
  if 'a' ≤ c ∧ c ≤ 'z' then Char.ofNat (c.toNat - 32) else c

/-- Python `str.lower` (ASCII). -/
def pyStrLower (s : String) : String := String.mk (s.data.map pyCharLower)

/-- Python `str.upper` (ASCII). -/
def pyStrUpper (s : String) : String := String.mk (s.data.map pyCharUpper)

/-- Models `DEFAULT_NOTE_SHIFT_VALUE = "natural"` from the source. -/
def DEFAULT_NOTE_SHIFT_VALUE : String := "natural"

/-- Models `DEFAULT_NOTE_OCTAVE_VALUE = 4` from the source. -/
def DEFAULT_NOTE_OCTAVE_VALUE : Int := 4

/-- Models `OCTAVE_LOWER_BOUND = 0` from the source. -/
def OCTAVE_LOWER_BOUND : Int := 0

/-- Models `OCTAVE_UPPER_BOUND = 10` from the source. -/
def OCTAVE_UPPER_BOUND : Int := 10

/-- The `AbstractNote` enum: 12 members mapped 1:1 to the integers 0..11.
We carry the underlying value as a `Fin 12`; the 12 named members below are
the enum's constants. -/
structure AbstractNote where
  val : Fin 12
  deriving DecidableEq, Repr

instance : Fintype AbstractNote :=
  Fintype.ofEquiv (Fin 12)
    { toFun := AbstractNote.mk
      invFun := AbstractNote.val
      left_inv := fun _ => rfl
      right_inv := fun _ => rfl }

def AbstractNote.bsharp_cnatural : AbstractNote := ⟨0⟩
def AbstractNote.csharp_dflat : AbstractNote := ⟨1⟩
def AbstractNote.dnatural : AbstractNote := ⟨2⟩
def AbstractNote.dsharp_eflat : AbstractNote := ⟨3⟩
def AbstractNote.enatural_fflat : AbstractNote := ⟨4⟩
def AbstractNote.esharp_fnatural : AbstractNote := ⟨5⟩
def AbstractNote.fsharp_gflat : AbstractNote := ⟨6⟩
def AbstractNote.gnatural : AbstractNote := ⟨7⟩
def AbstractNote.gsharp_aflat : AbstractNote := ⟨8⟩
def AbstractNote.anatural : AbstractNote := ⟨9⟩
def AbstractNote.asharp_bflat : AbstractNote := ⟨10⟩
def AbstractNote.bnatural_cflat : AbstractNote := ⟨11⟩

/-- The 12 members of the enum, in declaration order.  `x in AbstractNote`
(used by `is_abstract_note_valid`) is membership in this list. -/
def AbstractNote.members : List AbstractNote :=
  [AbstractNote.bsharp_cnatural, AbstractNote.csharp_dflat,
   AbstractNote.dnatural, AbstractNote.dsharp_eflat,
   AbstractNote.enatural_fflat, AbstractNote.esharp_fnatural,
   AbstractNote.fsharp_gflat, AbstractNote.gnatural,
   AbstractNote.gsharp_aflat, AbstractNote.anatural,
   AbstractNote.asharp_bflat, AbstractNote.bnatural_cflat]

/-- Models `AbstractNote.__add__`: `AbstractNote((self.value + other) % len(AbstractNote))`.
`len(AbstractNote)` is 12 and Python's `%` on integers is mathematical
modulo (sign of the divisor), i.e. `Int.emod`. -/
def AbstractNote.add (a : AbstractNote) (n : Int) : AbstractNote :=
  ⟨⟨(((a.val.val : Int) + n) % 12).toNat, by
    have h1 : (0 : Int) ≤ ((a.val.val : Int) + n) % 12 :=
      Int.emod_nonneg _ (by norm_num)
    have h2 : ((a.val.val : Int) + n) % 12 < 12 :=
      Int.emod_lt_of_pos _ (by norm_num)
    omega⟩⟩

/-- Models `AbstractNote.__sub__`: `AbstractNote((self.value - other) % len(AbstractNote))`. -/
def AbstractNote.sub (a : AbstractNote) (n : Int) : AbstractNote :=
  ⟨⟨(((a.val.val : Int) - n) % 12).toNat, by
    have h1 : (0 : Int) ≤ ((a.val.val : Int) - n) % 12 :=
      Int.emod_nonneg _ (by norm_num)
    have h2 : ((a.val.val : Int) - n) % 12 < 12 :=
      Int.emod_lt_of_pos _ (by norm_num)
    omega⟩⟩

/-- Models `is_abstract_note_valid`: `input_abstract_note in AbstractNote`. -/
def is_abstract_note_valid (input_abstract_note : AbstractNote) : Bool :=
  AbstractNote.members.contains input_abstract_note

/-- Models `note_translation_dict` from `convert_note_to_abstract`, in source
order: an association list from (lower-case letter, canonical shift) to the
`AbstractNote` member. -/
def note_translation_dict : List ((String × String) × AbstractNote) :=
  [(("b", "sharp"), AbstractNote.bsharp_cnatural),
   (("c", "natural"), AbstractNote.bsharp_cnatural),
   (("c", "sharp"), AbstractNote.csharp_dflat),
   (("d", "flat"), AbstractNote.csharp_dflat),
   (("d", "natural"), AbstractNote.dnatural),
   (("d", "sharp"), AbstractNote.dsharp_eflat),
   (("e", "flat"), AbstractNote.dsharp_eflat),
   (("e", "natural"), AbstractNote.enatural_fflat),
   (("f", "flat"), AbstractNote.enatural_fflat),
   (("e", "sharp"), AbstractNote.esharp_fnatural),
   (("f", "natural"), AbstractNote.esharp_fnatural),
   (("f", "sharp"), AbstractNote.fsharp_gflat),
   (("g", "flat"), AbstractNote.fsharp_gflat),
   (("g", "natural"), AbstractNote.gnatural),
   (("g", "sharp"), AbstractNote.gsharp_aflat),
   (("a", "flat"), AbstractNote.gsharp_aflat),
   (("a", "natural"), AbstractNote.anatural),
   (("a", "sharp"), AbstractNote.asharp_bflat),
   (("b", "flat"), AbstractNote.asharp_bflat),
   (("b", "natural"), AbstractNote.bnatural_cflat),
   (("c", "flat"), AbstractNote.bnatural_cflat)]

/-- Models `convert_note_to_abstract(note_letter, note_shift="natural")`: lower-case
both arguments and look them up in `note_translation_dict`.  A missing key
(`KeyError`) becomes `ValueError`; an argument without `.lower()`
(`AttributeError`) becomes `TypeError`. -/
def convert_note_to_abstract (note_letter note_shift : PyVal) :
    Except PyErr AbstractNote :=
  match note_letter, note_shift with
  | PyVal.str l, PyVal.str s =>
      match note_translation_dict.lookup (pyStrLower l, pyStrLower s) with
      | some a => Except.ok a
      | none => Except.error PyErr.valueError
  | _, _ => Except.error PyErr.typeError

/-- Models `note_shift_translation_dict` from `parse_note_shift`, in source order. -/
def note_shift_translation_dict : List (String × String) :=
  [("natural", "natural"),
   ("sharp", "sharp"),
   ("#", "sharp"),
   ("flat", "flat"),
   ("b", "flat")]

/-- Models `parse_note_shift(note_shift)`: look up `note_shift.lower()` in the
shift translation dict; `KeyError` becomes `ValueError`, `AttributeError`
(no `.lower()`) becomes `TypeError`. -/
def parse_note_shift (note_shift : PyVal) : Except PyErr String :=
  match note_shift with
  | PyVal.str s =>
      match note_shift_translation_dict.lookup (pyStrLower s) with
      | some v => Except.ok v
      | none => Except.error PyErr.valueError
  | _ => Except.error PyErr.typeError

/-- Whether a character matches the regex class `[A-G]` under
`re.IGNORECASE` (ASCII). -/
def regex_letter_ok (c : Char) : Bool :=
  'a' ≤ pyCharLower c && pyCharLower c ≤ 'g'

/-- The five alternatives of the shift group
`(natural|sharp|#|flat|b)` in `parse_note_string`'s pattern. -/
def shift_token_strings : List String :=
  ["natural", "sharp", "#", "flat", "b"]

/-- Whether a character sequence matches the shift group under
`re.IGNORECASE`. -/
def shift_token_ok (l : List Char) : Bool :=
  shift_token_strings.contains (String.mk (l.map pyCharLower))

/-- The optional-space part `[ ]?` of the pattern: greedily consume one
leading space if present.  (Backtracking to the empty alternative can never
produce a match that the greedy choice misses: no shift token starts with a
space and the empty shift requires the remainder to be empty.) -/
def strip_one_space (l : List Char) : List Char :=
  match l with
  | c :: r => if c = ' ' then r else c :: r
  | [] => []

/-- Python's `$` (without `re.MULTILINE`) matches at the end of the string
or just before one newline at the end of the string, so the remainder fed
to the shift group may carry one trailing newline, which we drop here. -/
def drop_trailing_newline (l : List Char) : List Char :=
  if l.getLast? = some '\n' then l.dropLast else l

/-- Models `re.match(r"^([A-G])[ ]?(natural|sharp|#|flat|b)?$", s, re.IGNORECASE)`
on the character sequence of the subject string: returns the two captured
groups (the letter character, and the shift token characters when the
optional group matched). -/
def match_note_chars (l : List Char) : Option (Char × Option (List Char)) :=
  match l with
  | [] => none
  | c :: rest =>
    if regex_letter_ok c then
      match drop_trailing_newline (strip_one_space rest) with
      | [] => some (c, none)
      | u => if shift_token_ok u then some (c, some u) else none
    else none

/-- Models `re.match(r"^([A-G])[ ]?(natural|sharp|#|flat|b)?$", s, re.IGNORECASE)`. -/
def match_note_string (s : String) : Option (Char × Option (List Char)) :=
  match_note_chars s.data

/-- Models `parse_note_string(note_string)`: run the regex; on failure raise
`ValueError`; on success default an absent shift group to
`DEFAULT_NOTE_SHIFT_VALUE` or canonicalise a present one through
`parse_note_shift`, and return `(letter.lower(), shift.lower())`.
`re.match` on a non-string raises `TypeError`. -/
def parse_note_string (note_string : PyVal) : Except PyErr (String × String) :=
  match note_string with
  | PyVal.str s =>
      match match_note_string s with
      | none => Except.error PyErr.valueError
      | some (c, none) =>
          Except.ok (pyStrLower (String.mk [c]), pyStrLower DEFAULT_NOTE_SHIFT_VALUE)
      | some (c, some u) =>
          match parse_note_shift (PyVal.str (String.mk u)) with
          | Except.ok sh => Except.ok (pyStrLower (String.mk [c]), pyStrLower sh)
          | Except.error e => Except.error e
  | _ => Except.error PyErr.typeError

/-- Models `valid_note_letters` from `is_note_letter_valid`:
`[chr(x) for x in range(ord("a"), ord("g") + 1)]` (`ord "a" = 97`,
`ord "g" = 103`). -/
def valid_note_letters : List String :=
  (List.range (104 - 97)).map (fun k => String.mk [Char.ofNat (97 + k)])

/-- Models `is_note_letter_valid(x)`: `x.lower() in valid_note_letters`; a missing
`.lower()` (`AttributeError`) is re-raised as `TypeError`. -/
def is_note_letter_valid (input_note_letter : PyVal) : Except PyErr Bool :=
  match input_note_letter with
  | PyVal.str s => Except.ok (valid_note_letters.contains (pyStrLower s))
  | _ => Except.error PyErr.typeError

/-- Models `valid_note_shifts` from `is_note_shift_valid`, in source order. -/
def valid_note_shifts : List String :=
  ["flat", "natural", "sharp", "#", "b"]

/-- Models `is_note_shift_valid(x)`: `x.lower() in valid_note_shifts`; a missing
`.lower()` is re-raised as `TypeError`. -/
def is_note_shift_valid (input_note_shift : PyVal) : Except PyErr Bool :=
  match input_note_shift with
  | PyVal.str s => Except.ok (valid_note_shifts.contains (pyStrLower s))
  | _ => Except.error PyErr.typeError

/-- Models `is_note_octave_valid(x)`: `OCTAVE_LOWER_BOUND <= x <= OCTAVE_UPPER_BOUND`;
a `TypeError` in the chained comparison (e.g. comparing an `int` with a
`str`) is re-raised as `TypeError`.  No numeric cast is performed: an
integer is compared directly, and a (finite) float supports the chained
comparison too — Python compares `int` bounds with a `float` exactly — so
in-range floats such as 5.5 validate as `True`. -/
def is_note_octave_valid (input_note_octave : PyVal) : Except PyErr Bool :=
  match input_note_octave with
  | PyVal.int n =>
      Except.ok (decide (OCTAVE_LOWER_BOUND ≤ n ∧ n ≤ OCTAVE_UPPER_BOUND))
  | PyVal.float q =>
      Except.ok (decide ((OCTAVE_LOWER_BOUND : ℚ) ≤ q ∧ q ≤ (OCTAVE_UPPER_BOUND : ℚ)))
  | _ => Except.error PyErr.typeError

/-- The attribute state of a `Note` object: `_note_letter`, `_note_shift`,
`_note_octave` (exposed through the `note_octave` property) and `_note`
(exposed through the `note` property). -/
structure NoteState where
  note_letter : PyVal
  note_shift : PyVal
  note_octave : PyVal
  note : AbstractNote
  deriving DecidableEq, Repr

/-- The `note_octave` property setter: store the raw value if
`is_note_octave_valid` accepts it, otherwise raise `ValueError`;
a `TypeError` from the validator propagates. -/
def note_octave_setter (st : NoteState) (input_note_octave : PyVal) :
    Except PyErr NoteState :=
  match is_note_octave_valid input_note_octave with
  | Except.ok true => Except.ok { st with note_octave := input_note_octave }
  | Except.ok false => Except.error PyErr.valueError
  | Except.error e => Except.error e

/-- Models `Note.set_note(note_letter, note_shift, note_octave)`, as a state
transformer.  The source assigns in this order:
`self._note_letter = note_letter`, `self._note_shift = note_shift`,
`self.note_octave = note_octave` (property setter, may raise), then
`self._note = convert_note_to_abstract(...)` (may raise).  The result is
the final attribute state paired with the raised exception, if any, so
that state committed before a failure stays observable. -/
def set_note (st : NoteState) (note_letter note_shift note_octave : PyVal) :
    NoteState × Option PyErr :=
  let st1 : NoteState :=
    { st with note_letter := note_letter, note_shift := note_shift }
  match note_octave_setter st1 note_octave with
  | Except.error e => (st1, some e)
  | Except.ok st2 =>
    match convert_note_to_abstract note_letter note_shift with
    | Except.error e => (st2, some e)
    | Except.ok a => ({ st2 with note := a }, none)

/-- Models `Note.__init__`: delegates to `set_note`.  The placeholder fields of
the pre-`set_note` state model the not-yet-assigned attributes of a fresh
Python object; they are overwritten on success and discarded (the
constructor raises, no object escapes) on failure. -/
def mk_note (note_letter note_shift note_octave : PyVal) :
    Except PyErr NoteState :=
  let r := set_note ⟨note_letter, note_shift, note_octave,
                     AbstractNote.bsharp_cnatural⟩
             note_letter note_shift note_octave
  match r.2 with
  | some e => Except.error e
  | none => Except.ok r.1

/-- The right operand of `Note.__eq__`: either another `Note`, or a value
(such as a plain string or integer) that has no `note` / `note_octave`
attribute. -/
inductive PyObj where
  | noteObj (st : NoteState)
  | strVal (s : String)
  | intVal (n : Int)
  deriving DecidableEq, Repr

/-- Models `Note.__eq__`: `self.note == other.note and
self.note_octave == other.note_octave`.  Pitch classes are enum members
(Python `==` is identity on them); octaves are compared with Python `==`
(`pyValEq`), which identifies an integer octave with the equal float
octave.  Accessing `other.note` on an object without that attribute
raises `AttributeError`. -/
def note_eq (self : NoteState) (other : PyObj) : Except PyErr Bool :=
  match other with
  | PyObj.noteObj o =>
      Except.ok (self.note == o.note && pyValEq self.note_octave o.note_octave)
  | _ => Except.error PyErr.attributeError

/-- A duck-typed argument to `is_note_valid`: each of the attributes the
function reads (`_note_letter`, `_note_shift`, `note_octave`) is either
present (with a dynamically typed value) or absent. -/
structure DuckNote where
  note_letter : Option PyVal
  note_shift : Option PyVal
  note_octave : Option PyVal
  deriving DecidableEq, Repr

/-- Models `is_note_valid(input_note)`: evaluate
`is_note_letter_valid(n._note_letter) and is_note_shift_valid(n._note_shift)
and is_note_octave_valid(n.note_octave)` (Python `and` short-circuits),
catching only `AttributeError` (a missing attribute) as `False`; any
`TypeError` raised by an inner validator propagates. -/
def is_note_valid (input_note : DuckNote) : Except PyErr Bool :=
  match input_note.note_letter with
  | none => Except.ok false
  | some l =>
    match is_note_letter_valid l with
    | Except.error e => Except.error e
    | Except.ok false => Except.ok false
    | Except.ok true =>
      match input_note.note_shift with
      | none => Except.ok false
      | some sh =>
        match is_note_shift_valid sh with
        | Except.error e => Except.error e
        | Except.ok false => Except.ok false
        | Except.ok true =>
          match input_note.note_octave with
          | none => Except.ok false
          | some o =>
            match is_note_octave_valid o with
            | Except.error e => Except.error e
            | Except.ok b => Except.ok b

/-- The canonical shift spellings (the values of
`note_shift_translation_dict`, and the shifts used as keys of
`note_translation_dict`). -/
def canonical_shifts : List String :=
  ["natural", "sharp", "flat"]

/-- The spec's six-plus-three enharmonic collisions: pairs of
(letter, canonical shift) keys that the spec says map to the same pitch
class. -/
def enharmonic_pairs : List ((String × String) × (String × String)) :=
  [(("b", "sharp"), ("c", "natural")),
   (("c", "sharp"), ("d", "flat")),
   (("d", "sharp"), ("e", "flat")),
   (("e", "natural"), ("f", "flat")),
   (("e", "sharp"), ("f", "natural")),
   (("f", "sharp"), ("g", "flat")),
   (("g", "sharp"), ("a", "flat")),
   (("a", "sharp"), ("b", "flat")),
   (("b", "natural"), ("c", "flat"))]

/-- Build the note string for one decomposition under the spec's grammar
for `parse_note_string` (amended with the trailing-newline quirk): one
letter character, at most one space, at most one shift token, and at most
one trailing newline. -/
def note_string_of (c : Char) (sp : Bool) (tok : Option (List Char)) (nl : Bool) :
    String :=
  String.mk (c :: ((if sp then [' '] else []) ++
    ((match tok with | some t => t | none => []) ++
     (if nl then ['\n'] else []))))

/-- The side conditions of the grammar: the letter matches `[A-G]`
case-insensitively and a present shift token matches the alternation
`natural|sharp|#|flat|b` case-insensitively. -/
def grammar_ok (c : Char) (tok : Option (List Char)) : Prop :=
  regex_letter_ok c = true ∧ ∀ t ∈ tok, shift_token_ok t = true

/-- The canonical (lower-case) shift a grammar decomposition parses to:
`"natural"` when the token is absent, otherwise its image under
`parse_note_shift`'s translation dict. -/
def canonical_shift_of (tok : Option (List Char)) : String :=
  match tok with
  | none => DEFAULT_NOTE_SHIFT_VALUE
  | some t =>
    match note_shift_translation_dict.lookup (String.mk (t.map pyCharLower)) with
    | some v => v
    | none => DEFAULT_NOTE_SHIFT_VALUE

/-- The state of `Note("a", "natural", 4)` (used as the pre-existing note
in the mutation counterexamples). -/
def noteA4 : NoteState :=
  ⟨PyVal.str "a", PyVal.str "natural", PyVal.int 4, AbstractNote.anatural⟩

/-- The state of `Note("A", "flat", 4)`. -/
def abFlat4 : NoteState :=
  ⟨PyVal.str "A", PyVal.str "flat", PyVal.int 4, AbstractNote.gsharp_aflat⟩

/-- The state of `Note("G", "sharp", 4)`. -/
def gSharp4 : NoteState :=
  ⟨PyVal.str "G", PyVal.str "sharp", PyVal.int 4, AbstractNote.gsharp_aflat⟩

/-- The state of `Note("G", "sharp", 5)`. -/
def gSharp5 : NoteState :=
  ⟨PyVal.str "G", PyVal.str "sharp", PyVal.int 5, AbstractNote.gsharp_aflat⟩

/-- A duck-typed object whose stored letter `"z"` is an invalid (but
string-typed) letter and whose stored shift is the integer `42`. -/
def duckZ : DuckNote :=
  ⟨some (PyVal.str "z"), some (PyVal.int 42), some (PyVal.int 4)⟩

/-- The exact rational value of the Python float `5.5`, written in lowest
terms (11/2) so that the kernel can evaluate comparisons on it; the
lemma `float5_5_eq` below identifies it with the numeral `5.5`. -/
def float5_5 : ℚ := ⟨11, 2, by decide, by decide⟩

/-- The exact rational value of the Python float `11.5` (= 23/2), an
out-of-range octave; the lemma `float11_5_eq` below identifies it with
the numeral `11.5`. -/
def float11_5 : ℚ := ⟨23, 2, by decide, by decide⟩

/-! Section: Helper lemmas -/

theorem AbstractNote.val_inj {a b : AbstractNote} (h : a.val = b.val) : a = b := by
  cases a
  cases b
  exact congrArg AbstractNote.mk h

theorem AbstractNote.add_val (a : AbstractNote) (n : Int) :
    (((a.add n).val.val : Nat) : Int) = ((a.val.val : Int) + n) % 12 :=
  Int.toNat_of_nonneg (Int.emod_nonneg _ (by norm_num))

theorem AbstractNote.sub_val (a : AbstractNote) (n : Int) :
    (((a.sub n).val.val : Nat) : Int) = ((a.val.val : Int) - n) % 12 :=
  Int.toNat_of_nonneg (Int.emod_nonneg _ (by norm_num))

theorem is_abstract_note_valid_all (a : AbstractNote) :
    is_abstract_note_valid a = true := by
  revert a
  decide

theorem float5_5_eq : float5_5 = 5.5 := by
  simp only [float5_5]
  rw [Rat.mk'_eq_divInt, Rat.divInt_eq_div]
  norm_num

theorem float11_5_eq : float11_5 = 11.5 := by
  simp only [float11_5]
  rw [Rat.mk'_eq_divInt, Rat.divInt_eq_div]
  norm_num

/-! Section: Claim C3 -/

/-- Claim C3: for every pitch class `pc` and every integer `n` (any sign or
magnitude), `pc + n` is the pitch class whose underlying value is
`(pc.value + n) mod 12` under true mathematical modulo — i.e. the result
value lies in `[0, 12)` and is congruent to `pc.value + n` modulo 12 — and
in particular the pitch class with value 9 plus 299 equals the pitch class
with value 8. -/
theorem C3_pitch_class_addition (pc : AbstractNote) (n : Int) :
    (0 : Int) ≤ ((pc.add n).val.val : Int) ∧
    ((pc.add n).val.val : Int) < 12 ∧
    (12 : Int) ∣ (((pc.val.val : Int) + n) - ((pc.add n).val.val : Int)) ∧
    ((pc.add n).val.val : Int) = ((pc.val.val : Int) + n) % 12 ∧
    AbstractNote.anatural.add 299 = AbstractNote.gsharp_aflat := by
  have h := AbstractNote.add_val pc n
  have hb : (pc.add n).val.val < 12 := (pc.add n).val.isLt
  refine ⟨by omega, by omega, by omega, h, by decide⟩

/-- Witness for C3 at the concrete input from the claim: pitch class 9
plus 299 has underlying value `(9 + 299) mod 12 = 8`. -/
theorem C3_pitch_class_addition_witness :
    ((AbstractNote.anatural.add 299).val.val : Int) =
      ((AbstractNote.anatural.val.val : Int) + 299) % 12 :=
  (C3_pitch_class_addition AbstractNote.anatural 299).2.2.2.1

/-! Section: Claim C4 -/

/-- Claim C4: for every pitch class `p` and every integer `n` (including
negative `n` and `|n| > 12`), `p + n` and `p - n` are defined members of
the 12-element set, `p + 0 == p`, `p + 12 == p`, `(p + n) - n == p`, and
`p - n` equals `p + (-n)`. -/
theorem C4_pitch_class_closure (p : AbstractNote) (n : Int) :
    is_abstract_note_valid (p.add n) = true ∧
    is_abstract_note_valid (p.sub n) = true ∧
    p.add 0 = p ∧
    p.add 12 = p ∧
    (p.add n).sub n = p ∧
    p.sub n = p.add (-n) := by
  have h1 := AbstractNote.add_val p n
  have h2 := AbstractNote.sub_val (p.add n) n
  have h3 := AbstractNote.sub_val p n
  have h4 := AbstractNote.add_val p (-n)
  have h5 := AbstractNote.add_val p 0
  have h6 := AbstractNote.add_val p 12
  have hb : p.val.val < 12 := p.val.isLt
  refine ⟨is_abstract_note_valid_all _, is_abstract_note_valid_all _, ?_, ?_, ?_, ?_⟩ <;>
    (apply AbstractNote.val_inj; apply Fin.ext; omega)

/-- Witness for C4 at a concrete input: subtracting 299 from pitch class 9
equals adding -299, and the sum of 9 and 299 remains a defined member. -/
theorem C4_pitch_class_closure_witness :
    AbstractNote.anatural.sub 299 = AbstractNote.anatural.add (-299) ∧
    is_abstract_note_valid (AbstractNote.anatural.add 299) = true :=
  ⟨(C4_pitch_class_closure AbstractNote.anatural 299).2.2.2.2.2,
   (C4_pitch_class_closure AbstractNote.anatural 299).1⟩

/-! Section: Claim C1 -/

/-- Claim C1, counterexample: `set_note` is not atomic.  Starting from the
successfully constructed `Note("a", "natural", 4)`, the call
`set_note("b", "flat", 299)` fails in octave validation (`ValueError`), yet
afterwards the stored note letter and note shift have changed to the new
values — observable partially-applied state, contradicting the claim that
all four fields are unchanged after a failure. -/
theorem C1_counterexample :
    mk_note (PyVal.str "a") (PyVal.str "natural") (PyVal.int 4) =
      Except.ok noteA4 ∧
    (set_note noteA4 (PyVal.str "b") (PyVal.str "flat") (PyVal.int 299)).2 =
      some PyErr.valueError ∧
    (set_note noteA4 (PyVal.str "b") (PyVal.str "flat") (PyVal.int 299)).1.note_letter ≠
      noteA4.note_letter ∧
    (set_note noteA4 (PyVal.str "b") (PyVal.str "flat") (PyVal.int 299)).1.note_shift ≠
      noteA4.note_shift := by
  decide

/-- Claim C1, amended: `set_note` stores the new letter and shift before
any validation, so a failing call leaves them set to the new values; the
stored pitch class is unchanged by every failing call; and the stored
octave is unchanged exactly when the failure is octave validation (when
the octave is accepted and pitch translation fails, the new octave has
already been committed). -/
theorem C1_set_note_partial_state (st : NoteState) (l sh o : PyVal) :
    (set_note st l sh o).1.note_letter = l ∧
    (set_note st l sh o).1.note_shift = sh ∧
    ((set_note st l sh o).2 ≠ none → (set_note st l sh o).1.note = st.note) ∧
    (is_note_octave_valid o ≠ Except.ok true →
      (set_note st l sh o).1.note_octave = st.note_octave ∧
      (set_note st l sh o).2 ≠ none) ∧
    (is_note_octave_valid o = Except.ok true →
      (set_note st l sh o).1.note_octave = o) := by
  rcases ho : is_note_octave_valid o with e | b
  · simp [set_note, note_octave_setter, ho]
  · cases b
    · simp [set_note, note_octave_setter, ho]
    · rcases hc : convert_note_to_abstract l sh with e2 | a
      · simp [set_note, note_octave_setter, ho, hc]
      · simp [set_note, note_octave_setter, ho, hc]

/-- Witness for the amended C1 theorem at the counterexample input: the
failing `set_note("b", "flat", 299)` on `Note("a", "natural", 4)` has
committed the new letter while leaving octave and pitch class unchanged. -/
theorem C1_set_note_partial_state_witness :
    (set_note noteA4 (PyVal.str "b") (PyVal.str "flat") (PyVal.int 299)).1.note_letter =
      PyVal.str "b" ∧
    (set_note noteA4 (PyVal.str "b") (PyVal.str "flat") (PyVal.int 299)).1.note_octave =
      noteA4.note_octave ∧
    (set_note noteA4 (PyVal.str "b") (PyVal.str "flat") (PyVal.int 299)).1.note =
      noteA4.note :=
  ⟨(C1_set_note_partial_state noteA4 (PyVal.str "b") (PyVal.str "flat") (PyVal.int 299)).1,
   ((C1_set_note_partial_state noteA4 (PyVal.str "b") (PyVal.str "flat")
      (PyVal.int 299)).2.2.2.1 (by decide)).1,
   (C1_set_note_partial_state noteA4 (PyVal.str "b") (PyVal.str "flat")
      (PyVal.int 299)).2.2.1 (by decide)⟩

/-! Section: Claim C2 -/

/-- Claim C2, counterexample: the octave setter performs no numeric cast.
On the numeric string `"5"` the claim says the setter accepts it and
stores the cast integer 5; the code instead raises `TypeError` (the
chained comparison of an `int` bound with a `str` raises, and
`is_note_octave_valid` re-raises it as `TypeError`).  And on the
integer-castable float 5.5 the claim says the setter stores the cast
integer; the code instead accepts it (Python's `0 <= 5.5 <= 10` is
`True`) and stores the float 5.5 itself, uncast. -/
theorem C2_counterexample :
    note_octave_setter noteA4 (PyVal.str "5") = Except.error PyErr.typeError ∧
    note_octave_setter noteA4 (PyVal.str "5") ≠
      Except.ok { noteA4 with note_octave := PyVal.int 5 } ∧
    note_octave_setter noteA4 (PyVal.float float5_5) =
      Except.ok { noteA4 with note_octave := PyVal.float float5_5 } ∧
    note_octave_setter noteA4 (PyVal.float float5_5) ≠
      Except.ok { noteA4 with note_octave := PyVal.int 5 } := by
  decide

/-- Claim C2, amended: the octave setter performs no numeric cast.  It
accepts an integer iff it lies in
`[OCTAVE_LOWER_BOUND, OCTAVE_UPPER_BOUND] = [0, 10]` and stores it
unchanged (0 and 10 accepted; -1, 11, 299 rejected), and likewise accepts
a finite float iff it lies in `[0, 10]` and stores the float itself,
uncast (5.5 is stored as 5.5, not as 5); any integer or finite float
outside the range fails with `InvalidValue` (`ValueError`); and every
string input — including numeric strings such as `"5"`, so also every
malformed numeral — fails with `WrongType` (`TypeError`), because the
chained comparison of the `int` bounds with a `str` raises rather than
any cast being attempted. -/
theorem C2_octave_setter (st : NoteState) (n : Int) (q : ℚ) (s : String) :
    (OCTAVE_LOWER_BOUND ≤ n ∧ n ≤ OCTAVE_UPPER_BOUND →
      note_octave_setter st (PyVal.int n) =
        Except.ok { st with note_octave := PyVal.int n }) ∧
    (¬ (OCTAVE_LOWER_BOUND ≤ n ∧ n ≤ OCTAVE_UPPER_BOUND) →
      note_octave_setter st (PyVal.int n) = Except.error PyErr.valueError) ∧
    ((OCTAVE_LOWER_BOUND : ℚ) ≤ q ∧ q ≤ (OCTAVE_UPPER_BOUND : ℚ) →
      note_octave_setter st (PyVal.float q) =
        Except.ok { st with note_octave := PyVal.float q }) ∧
    (¬ ((OCTAVE_LOWER_BOUND : ℚ) ≤ q ∧ q ≤ (OCTAVE_UPPER_BOUND : ℚ)) →
      note_octave_setter st (PyVal.float q) = Except.error PyErr.valueError) ∧
    note_octave_setter st (PyVal.str s) = Except.error PyErr.typeError := by
  refine ⟨fun h => ?_, fun h => ?_, fun h => ?_, fun h => ?_, rfl⟩ <;>
    simp [note_octave_setter, is_note_octave_valid, h]

/-- Witness for the amended C2 theorem at concrete inputs: octave 0 and 10
are accepted and stored, -1, 11 and 299 are rejected with `ValueError`,
the float 5.5 is accepted and stored uncast while the float 11.5 is
rejected with `ValueError`, and the numeric string `"5"` is rejected with
`TypeError`. -/
theorem C2_octave_setter_witness :
    note_octave_setter noteA4 (PyVal.int 0) =
      Except.ok { noteA4 with note_octave := PyVal.int 0 } ∧
    note_octave_setter noteA4 (PyVal.int 10) =
      Except.ok { noteA4 with note_octave := PyVal.int 10 } ∧
    note_octave_setter noteA4 (PyVal.int (-1)) = Except.error PyErr.valueError ∧
    note_octave_setter noteA4 (PyVal.int 11) = Except.error PyErr.valueError ∧
    note_octave_setter noteA4 (PyVal.int 299) = Except.error PyErr.valueError ∧
    note_octave_setter noteA4 (PyVal.float float5_5) =
      Except.ok { noteA4 with note_octave := PyVal.float float5_5 } ∧
    note_octave_setter noteA4 (PyVal.float float11_5) =
      Except.error PyErr.valueError ∧
    note_octave_setter noteA4 (PyVal.str "5") = Except.error PyErr.typeError :=
  ⟨(C2_octave_setter noteA4 0 0 "5").1 (by decide),
   (C2_octave_setter noteA4 10 0 "5").1 (by decide),
   (C2_octave_setter noteA4 (-1) 0 "5").2.1 (by decide),
   (C2_octave_setter noteA4 11 0 "5").2.1 (by decide),
   (C2_octave_setter noteA4 299 0 "5").2.1 (by decide),
   (C2_octave_setter noteA4 0 float5_5 "5").2.2.1 (by decide),
   (C2_octave_setter noteA4 0 float11_5 "5").2.2.2.1 (by decide),
   (C2_octave_setter noteA4 0 0 "5").2.2.2.2⟩

/-! Section: Claim C8 -/

/-- Claim C8: for any two Note states, `__eq__` returns `True` iff both
the pitch classes and the octaves match, regardless of letter/shift
spelling — "octaves match" meaning Python `==` on the stored octaves,
which on two integer octaves (the shape every claim exercises) is exactly
equality of the integers (second conjunct); in particular
`Note("A", "flat", 4)` equals `Note("G", "sharp", 4)`, and the same two
spellings at octaves 4 and 5 are unequal. -/
theorem C8_note_equality (st1 st2 : NoteState) :
    (note_eq st1 (PyObj.noteObj st2) = Except.ok true ↔
      (st1.note = st2.note ∧ pyValEq st1.note_octave st2.note_octave = true)) ∧
    (∀ m k : Int, pyValEq (PyVal.int m) (PyVal.int k) = true ↔ m = k) ∧
    mk_note (PyVal.str "A") (PyVal.str "flat") (PyVal.int 4) =
      Except.ok abFlat4 ∧
    mk_note (PyVal.str "G") (PyVal.str "sharp") (PyVal.int 4) =
      Except.ok gSharp4 ∧
    note_eq abFlat4 (PyObj.noteObj gSharp4) = Except.ok true ∧
    mk_note (PyVal.str "G") (PyVal.str "sharp") (PyVal.int 5) =
      Except.ok gSharp5 ∧
    note_eq abFlat4 (PyObj.noteObj gSharp5) = Except.ok false := by
  refine ⟨?_, ?_, by decide, by decide, by decide, by decide, by decide⟩
  · simp [note_eq, Bool.and_eq_true, beq_iff_eq]
  · intro m k
    simp [pyValEq, beq_iff_eq]

/-- Witness for C8 at a concrete input: the general equivalence applied to
`Note("A", "flat", 4)` and `Note("G", "sharp", 4)` (equal pitch class,
equal octave, different spelling). -/
theorem C8_note_equality_witness :
    note_eq abFlat4 (PyObj.noteObj gSharp4) = Except.ok true :=
  (C8_note_equality abFlat4 gSharp4).1.mpr ⟨rfl, by decide⟩

/-! Section: Claim C9 -/

/-- Claim C9: comparing a Note for equality against an object without
`note` / `note_octave` attributes (a plain string or integer) raises
`AttributeError` rather than returning `False`; against another Note the
comparison always returns a boolean. -/
theorem C9_eq_attribute_error (st : NoteState) (s : String) (n : Int) :
    note_eq st (PyObj.strVal s) = Except.error PyErr.attributeError ∧
    note_eq st (PyObj.intVal n) = Except.error PyErr.attributeError ∧
    ∀ other : NoteState, ∃ b : Bool,
      note_eq st (PyObj.noteObj other) = Except.ok b :=
  ⟨rfl, rfl, fun _ => ⟨_, rfl⟩⟩

/-- Witness for C9 at a concrete input: comparing `Note("a", "natural", 4)`
with a plain string raises `AttributeError`. -/
theorem C9_eq_attribute_error_witness :
    note_eq noteA4 (PyObj.strVal "hello") = Except.error PyErr.attributeError :=
  (C9_eq_attribute_error noteA4 "hello" 0).1

/-! Section: Claim C10 -/

/-- The three inner validators raise only `TypeError`, never
`AttributeError` (each catches the `AttributeError` of `.lower()` or the
`TypeError` of the comparison and re-raises `TypeError`). -/
theorem validators_never_attribute_error (v : PyVal) :
    is_note_letter_valid v ≠ Except.error PyErr.attributeError ∧
    is_note_shift_valid v ≠ Except.error PyErr.attributeError ∧
    is_note_octave_valid v ≠ Except.error PyErr.attributeError := by
  cases v <;>
    simp [is_note_letter_valid, is_note_shift_valid, is_note_octave_valid]

/-- Claim C10, counterexample: the `and` chain in `is_note_valid`
short-circuits.  For an object whose stored letter is the (string-typed
but invalid) `"z"` and whose stored shift is the integer `42`, the claim
says the shift validator's `WrongType` propagates; the code instead
returns `False` from the letter validator without ever consulting the
shift validator. -/
theorem C10_counterexample :
    is_note_valid duckZ = Except.ok false ∧
    is_note_valid duckZ ≠ Except.error PyErr.typeError := by
  decide

/-- Claim C10, amended: `is_note_valid` converts only attribute-access
failures into `False` (it never lets `AttributeError` escape), and an
inner validator's `WrongType` propagates whenever that validator is
reached — the letter validator unconditionally, the shift validator
provided the letter validated `True`, and the octave validator provided
letter and shift both validated `True`; if an earlier validator already
returned `False`, the conjunction short-circuits to `False` without
consulting the later validators. -/
theorem C10_is_note_valid_propagation (d : DuckNote) :
    is_note_valid d ≠ Except.error PyErr.attributeError ∧
    (d.note_letter = none → is_note_valid d = Except.ok false) ∧
    (∀ n : Int, d.note_letter = some (PyVal.int n) →
      is_note_valid d = Except.error PyErr.typeError) ∧
    (∀ l, d.note_letter = some l → is_note_letter_valid l = Except.ok false →
      is_note_valid d = Except.ok false) ∧
    (∀ l, d.note_letter = some l → is_note_letter_valid l = Except.ok true →
      d.note_shift = none → is_note_valid d = Except.ok false) ∧
    (∀ l n, d.note_letter = some l → is_note_letter_valid l = Except.ok true →
      d.note_shift = some (PyVal.int n) →
      is_note_valid d = Except.error PyErr.typeError) ∧
    (∀ l sh, d.note_letter = some l → is_note_letter_valid l = Except.ok true →
      d.note_shift = some sh → is_note_shift_valid sh = Except.ok true →
      d.note_octave = none → is_note_valid d = Except.ok false) ∧
    (∀ l sh s, d.note_letter = some l → is_note_letter_valid l = Except.ok true →
      d.note_shift = some sh → is_note_shift_valid sh = Except.ok true →
      d.note_octave = some (PyVal.str s) →
      is_note_valid d = Except.error PyErr.typeError) := by
  obtain ⟨ol, os, oo⟩ := d
  refine ⟨?_, ?_, ?_, ?_, ?_, ?_, ?_, ?_⟩
  · cases ol with
    | none => simp [is_note_valid]
    | some l =>
      rcases hl : is_note_letter_valid l with e | bl
      · have := (validators_never_attribute_error l).1
        simp [is_note_valid, hl]
        rintro rfl
        simp [hl] at this
      · cases bl
        · simp [is_note_valid, hl]
        · cases os with
          | none => simp [is_note_valid, hl]
          | some sh =>
            rcases hs : is_note_shift_valid sh with e | bs
            · have := (validators_never_attribute_error sh).2.1
              simp [is_note_valid, hl, hs]
              rintro rfl
              simp [hs] at this
            · cases bs
              · simp [is_note_valid, hl, hs]
              · cases oo with
                | none => simp [is_note_valid, hl, hs]
                | some o =>
                  rcases hoo : is_note_octave_valid o with e | bo
                  · have := (validators_never_attribute_error o).2.2
                    simp [is_note_valid, hl, hs, hoo]
                    rintro rfl
                    simp [hoo] at this
                  · simp [is_note_valid, hl, hs, hoo]
  · rintro rfl
    simp [is_note_valid]
  · rintro n rfl
    simp [is_note_valid, is_note_letter_valid]
  · rintro l rfl hl
    simp [is_note_valid, hl]
  · rintro l rfl hl rfl
    simp [is_note_valid, hl]
  · rintro l n rfl hl rfl
    simp [is_note_valid, hl, is_note_shift_valid]
  · rintro l sh rfl hl rfl hs rfl
    simp [is_note_valid, hl, hs]
  · rintro l sh s rfl hl rfl hs rfl
    simp [is_note_valid, hl, hs, is_note_octave_valid]

/-- Witness for the amended C10 theorem at concrete inputs: a missing
letter attribute yields `False`; an integer-typed letter, an integer-typed
shift after a valid letter, and a string-typed octave after valid letter
and shift each propagate `TypeError`. -/
theorem C10_is_note_valid_propagation_witness :
    is_note_valid ⟨none, some (PyVal.int 42), some (PyVal.int 4)⟩ =
      Except.ok false ∧
    is_note_valid ⟨some (PyVal.int 3), none, none⟩ =
      Except.error PyErr.typeError ∧
    is_note_valid ⟨some (PyVal.str "a"), some (PyVal.int 42), some (PyVal.int 4)⟩ =
      Except.error PyErr.typeError ∧
    is_note_valid ⟨some (PyVal.str "c"), some (PyVal.str "natural"),
        some (PyVal.str "A")⟩ =
      Except.error PyErr.typeError :=
  ⟨(C10_is_note_valid_propagation
      ⟨none, some (PyVal.int 42), some (PyVal.int 4)⟩).2.1 rfl,
   (C10_is_note_valid_propagation
      ⟨some (PyVal.int 3), none, none⟩).2.2.1 3 rfl,
   (C10_is_note_valid_propagation
      ⟨some (PyVal.str "a"), some (PyVal.int 42), some (PyVal.int 4)⟩).2.2.2.2.2.1
      (PyVal.str "a") 42 rfl (by decide) rfl,
   (C10_is_note_valid_propagation
      ⟨some (PyVal.str "c"), some (PyVal.str "natural"),
        some (PyVal.str "A")⟩).2.2.2.2.2.2.2
      (PyVal.str "c") (PyVal.str "natural") "A" rfl (by decide) rfl (by decide) rfl⟩

/-! Section: Claim C5 -/

/-- Claim C5, counterexample: the canonical enharmonic mapping table has
21 entries, not 20 — every one of the 7 × 3 pairs of
{a..g} × {flat, natural, sharp} has an entry. -/
theorem C5_counterexample :
    note_translation_dict.length = 21 ∧ note_translation_dict.length ≠ 20 := by
  decide

/-- Claim C5, amended: `convert_note_to_abstract` looks up a canonical
enharmonic mapping table of exactly 21 entries covering every pair of
{a..g} × {flat, natural, sharp} (each such pair produces one of the 12
pitch classes), with both members of each enharmonic pair (e.g.
`("b", "sharp")` and `("c", "natural")`) mapping to the same pitch class
value, and it fails with `InvalidValue` for every (letter, shift) pair
that has no table entry. -/
theorem C5_translation_table (l s : String) :
    note_translation_dict.length = 21 ∧
    (valid_note_letters.all (fun lt => canonical_shifts.all (fun sh =>
        (note_translation_dict.lookup (lt, sh)).isSome))) = true ∧
    (enharmonic_pairs.all (fun pr =>
        convert_note_to_abstract (PyVal.str pr.1.1) (PyVal.str pr.1.2) ==
          convert_note_to_abstract (PyVal.str pr.2.1) (PyVal.str pr.2.2))) = true ∧
    (note_translation_dict.lookup (pyStrLower l, pyStrLower s) = none →
      convert_note_to_abstract (PyVal.str l) (PyVal.str s) =
        Except.error PyErr.valueError) := by
  refine ⟨by decide, by decide, by decide, fun h => ?_⟩
  simp [convert_note_to_abstract, h]

/-- Witness for the amended C5 theorem at a concrete input: the pair
`("h", "natural")` has no table entry and fails with `ValueError`. -/
theorem C5_translation_table_witness :
    convert_note_to_abstract (PyVal.str "h") (PyVal.str "natural") =
      Except.error PyErr.valueError :=
  (C5_translation_table "h" "natural").2.2.2 (by decide)

/-! Section: Helper lemmas for the `parse_note_string` claims -/

theorem token_map_cases {t : List Char} (h : shift_token_ok t = true) :
    t.map pyCharLower = "natural".data ∨ t.map pyCharLower = "sharp".data ∨
    t.map pyCharLower = "#".data ∨ t.map pyCharLower = "flat".data ∨
    t.map pyCharLower = "b".data := by
  have hm : String.mk (t.map pyCharLower) ∈ shift_token_strings := by
    simpa [shift_token_ok] using h
  simp only [shift_token_strings, List.mem_cons, List.not_mem_nil, or_false] at hm
  rcases hm with h1 | h1 | h1 | h1 | h1
  · exact Or.inl (congrArg String.data h1)
  · exact Or.inr (Or.inl (congrArg String.data h1))
  · exact Or.inr (Or.inr (Or.inl (congrArg String.data h1)))
  · exact Or.inr (Or.inr (Or.inr (Or.inl (congrArg String.data h1))))
  · exact Or.inr (Or.inr (Or.inr (Or.inr (congrArg String.data h1))))

theorem token_head {t : List Char} (h : shift_token_ok t = true) :
    ∃ c0 t', t = c0 :: t' ∧ c0 ≠ ' ' := by
  cases t with
  | nil => exact absurd h (by decide)
  | cons c0 t' =>
    refine ⟨c0, t', rfl, fun hsp => ?_⟩
    subst hsp
    rcases token_map_cases h with h1 | h1 | h1 | h1 | h1 <;>
      (have h2 := congrArg List.head? h1; simp [pyCharLower] at h2)

theorem token_getLast_ne_newline {t : List Char} (h : shift_token_ok t = true) :
    t.getLast? ≠ some '\n' := by
  intro hlast
  rcases token_map_cases h with h1 | h1 | h1 | h1 | h1 <;>
    (have h2 := congrArg List.getLast? h1;
     rw [List.getLast?_map, hlast] at h2;
     simp [pyCharLower] at h2)

theorem dropLast_concat_of_getLast? {l : List Char} (h : l.getLast? = some '\n') :
    l = l.dropLast ++ ['\n'] := by
  induction l with
  | nil => simp at h
  | cons a t ih =>
    cases t with
    | nil =>
      simp at h
      subst h
      simp
    | cons b t' =>
      rw [List.getLast?_cons_cons] at h
      have := ih h
      calc a :: b :: t' = a :: ((b :: t').dropLast ++ ['\n']) := by rw [← this]
        _ = (a :: b :: t').dropLast ++ ['\n'] := by simp

theorem strip_one_space_decomp (l : List Char) :
    ∃ sp : Bool, l = (if sp then [' '] else []) ++ strip_one_space l := by
  cases l with
  | nil => exact ⟨false, rfl⟩
  | cons c r =>
    by_cases hc : c = ' '
    · subst hc
      exact ⟨true, by simp [strip_one_space]⟩
    · exact ⟨false, by simp [strip_one_space, hc]⟩

theorem drop_trailing_newline_decomp (l : List Char) :
    ∃ nl : Bool, l = drop_trailing_newline l ++ (if nl then ['\n'] else []) := by
  by_cases h : l.getLast? = some '\n'
  · refine ⟨true, ?_⟩
    simp only [drop_trailing_newline, h, if_pos, if_true]
    exact dropLast_concat_of_getLast? h
  · exact ⟨false, by simp [drop_trailing_newline, h]⟩

theorem match_note_string_of_grammar (c : Char) (sp : Bool)
    (tok : Option (List Char)) (nl : Bool)
    (hc : regex_letter_ok c = true) (ht : ∀ t ∈ tok, shift_token_ok t = true) :
    match_note_string (note_string_of c sp tok nl) = some (c, tok) := by
  cases tok with
  | none =>
    cases sp <;> cases nl <;>
      simp [match_note_string, note_string_of, match_note_chars, hc,
        strip_one_space, drop_trailing_newline]
  | some t =>
    have htok : shift_token_ok t = true := ht t rfl
    obtain ⟨c0, t', rfl, hc0⟩ := token_head htok
    have hlast := token_getLast_ne_newline htok
    have hstrip : strip_one_space ((if sp then [' '] else []) ++
        ((c0 :: t') ++ (if nl then ['\n'] else []))) =
        (c0 :: t') ++ (if nl then ['\n'] else []) := by
      cases sp <;> simp [strip_one_space, hc0]
    have hdrop : drop_trailing_newline ((c0 :: t') ++ (if nl then ['\n'] else [])) =
        c0 :: t' := by
      cases nl
      · simp [drop_trailing_newline, hlast]
      · show drop_trailing_newline ((c0 :: t') ++ ['\n']) = c0 :: t'
        have h1 : ((c0 :: t') ++ ['\n']).getLast? = some '\n' := List.getLast?_concat _
        have h2 : ((c0 :: t') ++ ['\n']).dropLast = c0 :: t' := List.dropLast_concat
        rw [drop_trailing_newline, if_pos h1, h2]
    simp only [match_note_string, note_string_of, match_note_chars, hc, if_true]
    rw [hstrip, hdrop]
    simp [htok]

theorem match_note_string_some {s : String} {c : Char} {osh : Option (List Char)}
    (h : match_note_string s = some (c, osh)) :
    regex_letter_ok c = true ∧ (∀ t ∈ osh, shift_token_ok t = true) ∧
    ∃ sp nl, s = note_string_of c sp osh nl := by
  have hdata : match_note_chars s.data = some (c, osh) := h
  cases hd : s.data with
  | nil => rw [hd] at hdata; exact absurd hdata (by simp [match_note_chars])
  | cons c1 rest =>
    rw [hd] at hdata
    by_cases hl : regex_letter_ok c1 = true
    · obtain ⟨sp, hsp⟩ := strip_one_space_decomp rest
      obtain ⟨nl, hnl⟩ := drop_trailing_newline_decomp (strip_one_space rest)
      have hs : s = String.mk (c1 :: rest) := by rw [← hd]
      cases hu : drop_trailing_newline (strip_one_space rest) with
      | nil =>
        simp only [match_note_chars, hl, if_true, hu] at hdata
        obtain ⟨rfl, rfl⟩ : c1 = c ∧ (none : Option (List Char)) = osh := by
          simpa using hdata
        refine ⟨hl, by simp, sp, nl, ?_⟩
        rw [hs, note_string_of]
        rw [hu] at hnl
        rw [hsp, hnl]
      | cons u0 u' =>
        simp only [match_note_chars, hl, if_true, hu] at hdata
        by_cases htk : shift_token_ok (u0 :: u') = true
        · simp only [htk, if_true] at hdata
          obtain ⟨rfl, rfl⟩ : c1 = c ∧ (some (u0 :: u') : Option (List Char)) = osh := by
            simpa using hdata
          refine ⟨hl, ?_, sp, nl, ?_⟩
          · intro t htm
            have h3 : u0 :: u' = t := by simpa using htm
            rw [← h3]
            exact htk
          · rw [hs, note_string_of]
            rw [hu] at hnl
            rw [hsp, hnl]
        · simp [htk] at hdata
    · rw [match_note_chars] at hdata
      simp [hl] at hdata

theorem parse_note_string_of_grammar (c : Char) (sp : Bool)
    (tok : Option (List Char)) (nl : Bool)
    (hc : regex_letter_ok c = true) (ht : ∀ t ∈ tok, shift_token_ok t = true) :
    parse_note_string (PyVal.str (note_string_of c sp tok nl)) =
      Except.ok (String.mk [pyCharLower c], canonical_shift_of tok) := by
  have hm := match_note_string_of_grammar c sp tok nl hc ht
  cases tok with
  | none =>
    simp only [parse_note_string, hm]
    rfl
  | some t =>
    have htok := ht t rfl
    have e1 : pyStrLower (String.mk t) = String.mk (t.map pyCharLower) := rfl
    have hshift : parse_note_shift (PyVal.str (String.mk t)) =
        Except.ok (canonical_shift_of (some t)) := by
      simp only [parse_note_shift, canonical_shift_of, e1]
      rcases token_map_cases htok with h1 | h1 | h1 | h1 | h1 <;> rw [h1] <;> rfl
    simp only [parse_note_string, hm]
    rw [hshift]
    rcases token_map_cases htok with h1 | h1 | h1 | h1 | h1 <;>
      (simp only [canonical_shift_of, h1]; rfl)

/-! Section: Claim C6 -/

/-- Claim C6, counterexample: Python's `$` also matches just before a
single newline at the end of the subject, so `parse_note_string("C\n")`
succeeds and returns `("c", "natural")` even though `"C\n"` (letter plus
trailing newline) does not match the spec's stated grammar of one letter,
an optional space and an optional shift token, for which the claim
requires an `InvalidFormat` failure. -/
theorem C6_counterexample :
    parse_note_string (PyVal.str "C\n") = Except.ok ("c", "natural") ∧
    parse_note_string (PyVal.str "C\n") ≠ Except.error PyErr.valueError := by
  decide

/-- Claim C6, amended: `parse_note_string`, applied to any string of one
letter A–G (case-insensitive), optionally one space, optionally one shift
token among natural, sharp, #, flat, b (case-insensitive), *and optionally
one trailing newline* (an artifact of `$` matching just before a final
newline), returns the lower-cased letter together with the canonical
shift, defaulting to `"natural"` when the token is omitted; for every
(letter, shift) in the translation table,
`parse_note_string(letter.upper() + shift)` returns
`(letter.lower(), canonical_shift)`; it fails with `InvalidFormat`
(`ValueError`) for any string not matching this amended grammar (e.g.
`"H"`), and with `WrongType` (`TypeError`) for non-string input (e.g. 42). -/
theorem C6_parse_note_string (s : String) (n : Int) :
    (note_translation_dict.all (fun e =>
        parse_note_string (PyVal.str (pyStrUpper e.1.1 ++ e.1.2)) ==
          Except.ok (e.1.1, e.1.2)) = true) ∧
    (∀ (c : Char) (sp : Bool) (tok : Option (List Char)) (nl : Bool),
        grammar_ok c tok →
        parse_note_string (PyVal.str (note_string_of c sp tok nl)) =
          Except.ok (String.mk [pyCharLower c], canonical_shift_of tok)) ∧
    ((¬ ∃ (c : Char) (sp : Bool) (tok : Option (List Char)) (nl : Bool),
        grammar_ok c tok ∧ s = note_string_of c sp tok nl) →
      parse_note_string (PyVal.str s) = Except.error PyErr.valueError) ∧
    parse_note_string (PyVal.str "H") = Except.error PyErr.valueError ∧
    parse_note_string (PyVal.int n) = Except.error PyErr.typeError := by
  refine ⟨by decide, ?_, ?_, by decide, rfl⟩
  · rintro c sp tok nl ⟨hc, ht⟩
    exact parse_note_string_of_grammar c sp tok nl hc ht
  · intro hne
    cases hm : match_note_string s with
    | none => simp [parse_note_string, hm]
    | some r =>
      obtain ⟨c, osh⟩ := r
      obtain ⟨hc, ht, sp, nl, hs⟩ := match_note_string_some hm
      exact absurd ⟨c, sp, osh, nl, ⟨hc, ht⟩, hs⟩ hne

/-- Witness for the amended C6 theorem at a concrete input: the canonical
concatenation `"D SHARP"` (letter, one space, upper-case shift token)
parses to `("d", "sharp")`. -/
theorem C6_parse_note_string_witness :
    parse_note_string (PyVal.str "D SHARP") = Except.ok ("d", "sharp") := by
  have ht : ∀ t ∈ (some ['S', 'H', 'A', 'R', 'P'] : Option (List Char)),
      shift_token_ok t = true := by
    intro t htm
    have h0 : ['S', 'H', 'A', 'R', 'P'] = t := by simpa using htm
    rw [← h0]
    decide
  have h := (C6_parse_note_string "" 0).2.1 'D' true
    (some ['S', 'H', 'A', 'R', 'P']) false ⟨by decide, ht⟩
  have e1 : note_string_of 'D' true (some ['S', 'H', 'A', 'R', 'P']) false =
      "D SHARP" := rfl
  have e2 : canonical_shift_of (some ['S', 'H', 'A', 'R', 'P']) = "sharp" := by
    decide
  have e3 : String.mk [pyCharLower 'D'] = "d" := by decide
  rw [e1, e2, e3] at h
  exact h

/-! Section: Claim C7 -/

/-- Claim C7: matching is case-insensitive over the whole pattern, so the
upper-case flat token `"B"` is accepted as a flat marker: for every letter
character matching `[A-G]` in either case, parsing that letter followed by
`"B"` succeeds and returns the lower-cased letter with shift `"flat"`. -/
theorem C7_uppercase_flat_token (c : Char) (hc : regex_letter_ok c = true) :
    parse_note_string (PyVal.str (String.mk [c, 'B'])) =
      Except.ok (String.mk [pyCharLower c], "flat") := by
  have ht : ∀ t ∈ (some ['B'] : Option (List Char)), shift_token_ok t = true := by
    intro t htm
    have h0 : ['B'] = t := by simpa using htm
    rw [← h0]
    decide
  have h := parse_note_string_of_grammar c false (some ['B']) false hc ht
  have e1 : note_string_of c false (some ['B']) false = String.mk [c, 'B'] := rfl
  have e2 : canonical_shift_of (some ['B']) = "flat" := by decide
  rw [e1, e2] at h
  exact h

/-- Witness for C7 at concrete inputs: `"cB"` parses to `("c", "flat")`. -/
theorem C7_uppercase_flat_token_witness :
    parse_note_string (PyVal.str "cB") = Except.ok ("c", "flat") := by
  have h := C7_uppercase_flat_token 'c' (by decide)
  have e1 : String.mk ['c', 'B'] = "cB" := rfl
  have e2 : String.mk [pyCharLower 'c'] = "c" := by decide
  rw [e1, e2] at h
  exact h

end FretEngine
